import Mathlib

/-!
Verification development for the mood-driven movie recommendation pipeline
(moodmoviebot-streamlit).  The Python sources under `src/` are shallowly
embedded: pure functions become Lean functions over `List Char` / `String`,
`ℚ` stands for Python floats (arithmetic on the exact decimal literals of the
source), fallible operations return `Except String`, and the external
collaborators (LLM, vector store, embedding model, session cache) are
modelled as explicit environment values.  Python's global `random` generator
is modelled as an explicit deterministic generator state threaded through the
scoring loop, and CPython's process-stable `hash` on strings is modelled by a
fixed polynomial hash.
-/

namespace PyStr

/-- The character `{` (written via its code point to keep string literals clean). -/
def lbrace : Char := Char.ofNat 123

/-- The character `}`. -/
def rbrace : Char := Char.ofNat 125

/-- ASCII lower-casing of a single character, model of `str.lower` per character. -/
def lowChar (c : Char) : Char :=
  if 65 ≤ c.toNat ∧ c.toNat ≤ 90 then Char.ofNat (c.toNat + 32) else c

/-- ASCII upper-casing of a single character. -/
def upChar (c : Char) : Char :=
  if 97 ≤ c.toNat ∧ c.toNat ≤ 122 then Char.ofNat (c.toNat - 32) else c

/-- ASCII letter test (the cased characters relevant to the repository's data). -/
def isLetterB (c : Char) : Bool :=
  decide ((65 ≤ c.toNat ∧ c.toNat ≤ 90) ∨ (97 ≤ c.toNat ∧ c.toNat ≤ 122))

/-- Model of `str.lower` (the repository only case-folds ASCII data). -/
def pyLower (s : String) : String := ⟨s.data.map lowChar⟩

/-- `str.title` on a character list: a cased character is upper-cased when the
previous character was not cased, lower-cased otherwise. -/
def titleL (prev : Bool) : List Char → List Char
  | [] => []
  | c :: cs =>
    (if isLetterB c then (if prev then lowChar c else upChar c) else c) ::
      titleL (isLetterB c) cs

/-- Model of `str.title`. -/
def pyTitle (s : String) : String := ⟨titleL false s.data⟩

/-- Python whitespace for `str.strip` / `str.split()`. -/
def isPyWs (c : Char) : Bool :=
  c = ' ' ∨ c = '\t' ∨ c = '\n' ∨ c = '\x0d' ∨ c = '\x0b' ∨ c = '\x0c'

/-- `str.strip()` on a character list. -/
def stripL (l : List Char) : List Char :=
  ((l.dropWhile isPyWs).reverse.dropWhile isPyWs).reverse

/-- Model of `str.strip()`. -/
def pyStrip (s : String) : String := ⟨stripL s.data⟩

/-- Does `l` start with `p`? -/
def startsWithL : List Char → List Char → Bool
  | _, [] => true
  | [], _ :: _ => false
  | c :: cs, p :: ps => c = p && startsWithL cs ps

/-- Substring containment, model of Python's `needle in haystack`
(the empty needle is contained everywhere). -/
def containsSubL (hay needle : List Char) : Bool :=
  match hay with
  | [] => startsWithL [] needle
  | _ :: rest => startsWithL hay needle || containsSubL rest needle

/-- Model of `needle in haystack` on strings. -/
def pyContains (hay needle : String) : Bool := containsSubL hay.data needle.data

/-- Index of the first occurrence of character `c`, model of `str.find` (as
an `Option` instead of `-1`). -/
def findCharL (l : List Char) (c : Char) : Option Nat :=
  match l with
  | [] => none
  | d :: rest => if d = c then some 0 else (findCharL rest c).map (· + 1)

/-- Index of the last occurrence of character `c`, model of `str.rfind`. -/
def rfindCharL (l : List Char) (c : Char) : Option Nat :=
  match l with
  | [] => none
  | d :: rest =>
    match rfindCharL rest c with
    | some i => some (i + 1)
    | none => if d = c then some 0 else none

/-- Case-insensitive `startsWithL` (both sides folded with `lowChar`). -/
def startsWithCIL (l p : List Char) : Bool :=
  startsWithL (l.map lowChar) (p.map lowChar)

/-- Index of the first case-insensitive occurrence of `p` in `l`. -/
def findSubCIL (l p : List Char) : Option Nat :=
  match l with
  | [] => if p = [] then some 0 else none
  | _ :: rest =>
    if startsWithCIL l p then some 0 else (findSubCIL rest p).map (· + 1)

/-- `str.replace old new` (all non-overlapping occurrences, left to right);
`fuel` bounds the recursion and is instantiated with the input length. -/
def replaceLAux (fuel : Nat) (l old new : List Char) : List Char :=
  match fuel with
  | 0 => l
  | f + 1 =>
    match l with
    | [] => []
    | c :: rest =>
      if startsWithL l old ∧ old ≠ [] then
        new ++ replaceLAux f (l.drop old.length) old new
      else
        c :: replaceLAux f rest old new

/-- Model of `str.replace` for a non-empty pattern. -/
def pyReplace (s old new : String) : String :=
  ⟨replaceLAux s.data.length s.data old.data new.data⟩

/-- Removal of every non-greedy, case-insensitive `<tag>...</tag>` span, the
model of `re.sub(r'<tag>.*?</tag>', '', s, flags=re.DOTALL | re.IGNORECASE)`:
each match runs from an opening tag to the nearest following closing tag. -/
def removeTagLAux (fuel : Nat) (l openT closeT : List Char) : List Char :=
  match fuel with
  | 0 => l
  | f + 1 =>
    match l with
    | [] => []
    | c :: rest =>
      if startsWithCIL l openT then
        match findSubCIL (l.drop openT.length) closeT with
        | some i => removeTagLAux f (l.drop (openT.length + i + closeT.length)) openT closeT
        | none => c :: removeTagLAux f rest openT closeT
      else
        c :: removeTagLAux f rest openT closeT

/-- Remove every `<tag>...</tag>` span for one tag name. -/
def removeTag (s : String) (tag : String) : String :=
  ⟨removeTagLAux s.data.length s.data
    ('<' :: tag.data ++ ['>']) ('<' :: '/' :: tag.data ++ ['>'])⟩

/-- `str.split()` with no argument: split on whitespace runs, dropping empty
pieces. -/
def splitWsLAux (fuel : Nat) (l : List Char) : List (List Char) :=
  match fuel with
  | 0 => []
  | f + 1 =>
    match l.dropWhile isPyWs with
    | [] => []
    | c :: rest =>
      let word := (c :: rest).takeWhile (fun d => ¬ isPyWs d)
      word :: splitWsLAux f ((c :: rest).dropWhile (fun d => ¬ isPyWs d))

/-- Model of `str.split()` (whitespace split). -/
def pySplitWs (s : String) : List String :=
  (splitWsLAux s.data.length s.data).map String.mk

/-- Split on every occurrence of a separator character from `seps`, keeping
empty pieces: model of `re.split` with a single character class. -/
def splitAnyL (seps : List Char) (l : List Char) : List (List Char) :=
  l.foldr
    (fun c acc =>
      if c ∈ seps then [] :: acc
      else
        match acc with
        | h :: t => (c :: h) :: t
        | [] => [[c]])
    [[]]

/-- Split on runs of separator characters (model of `re.split` with a `+`
quantifier on a character class). -/
def splitRunsLAux (fuel : Nat) (seps l : List Char) : List (List Char) :=
  match fuel with
  | 0 => []
  | f + 1 =>
    match l with
    | [] => [[]]
    | _ :: _ =>
      let piece := l.takeWhile (fun d => ¬ d ∈ seps)
      let rest := l.dropWhile (fun d => ¬ d ∈ seps)
      match rest with
      | [] => [piece]
      | _ :: _ => piece :: splitRunsLAux f seps (rest.dropWhile (· ∈ seps))

/-- Split on runs of the separator characters. -/
def splitRuns (seps : List Char) (s : String) : List String :=
  (splitRunsLAux (s.data.length + 1) seps s.data).map String.mk

/-- Value of one hexadecimal digit. -/
def hexVal (c : Char) : Option Nat :=
  if 48 ≤ c.toNat ∧ c.toNat ≤ 57 then some (c.toNat - 48)
  else if 97 ≤ c.toNat ∧ c.toNat ≤ 102 then some (c.toNat - 87)
  else if 65 ≤ c.toNat ∧ c.toNat ≤ 70 then some (c.toNat - 55)
  else none

/-- Model of `int(s, 16)` on a plain (unsigned, unprefixed) digit string, the
shape the application's md5-derived context hashes have; `none` models the
`ValueError` raised on any non-hex character or on the empty string. -/
def parseHexL (l : List Char) : Option Nat :=
  match l with
  | [] => none
  | _ :: _ =>
    l.foldl
      (fun acc c =>
        match acc, hexVal c with
        | some a, some v => some (a * 16 + v)
        | _, _ => none)
      (some 0)

/-- Model of CPython's process-stable `hash` on strings (the exact value is
irrelevant to every claim; only its determinism within a process is used). -/
def pyHash (s : String) : Int :=
  s.data.foldl (fun a c => (a * 31 + c.toNat) % 2305843009213693951) 7

end PyStr

namespace Json

open PyStr

/-- JSON values as produced by `json.loads` (objects keep insertion order;
a duplicate key overwrites the earlier value in place, as in a Python dict). -/
inductive JVal where
  | jnull : JVal
  | jbool (b : Bool) : JVal
  | jnum (q : ℚ) : JVal
  | jstr (s : String) : JVal
  | jarr (elems : List JVal) : JVal
  | jobj (fields : List (String × JVal)) : JVal

/-- Insert into an ordered string-keyed dict, overwriting in place. -/
def dictInsertStr (l : List (String × JVal)) (k : String) (v : JVal) :
    List (String × JVal) :=
  if l.any (fun p => p.1 = k) then
    l.map (fun p => if p.1 = k then (k, v) else p)
  else l ++ [(k, v)]

/-- Dict lookup. -/
def dictGet (l : List (String × JVal)) (k : String) : Option JVal :=
  (l.find? (fun p => p.1 = k)).map (·.2)

/-- JSON whitespace. -/
def isJsonWs (c : Char) : Bool := c = ' ' ∨ c = '\t' ∨ c = '\n' ∨ c = '\x0d'

/-- Skip JSON whitespace. -/
def skipWs (l : List Char) : List Char := l.dropWhile isJsonWs

/-- Parse the body of a JSON string (after the opening quote); supports the
simple escapes; `none` models a decode error. -/
def parseStrBody (fuel : Nat) (l : List Char) (acc : List Char) :
    Option (String × List Char) :=
  match fuel with
  | 0 => none
  | f + 1 =>
    match l with
    | [] => none
    | c :: rest =>
      if c = '"' then some (⟨acc.reverse⟩, rest)
      else if c = '\\' then
        match rest with
        | [] => none
        | e :: rest2 =>
          if e = '"' then parseStrBody f rest2 ('"' :: acc)
          else if e = '\\' then parseStrBody f rest2 ('\\' :: acc)
          else if e = '/' then parseStrBody f rest2 ('/' :: acc)
          else if e = 'n' then parseStrBody f rest2 ('\n' :: acc)
          else if e = 't' then parseStrBody f rest2 ('\t' :: acc)
          else if e = 'r' then parseStrBody f rest2 ('\x0d' :: acc)
          else none
      else parseStrBody f rest (c :: acc)

/-- Decimal digit test. -/
def isDigitB (c : Char) : Bool := decide (48 ≤ c.toNat ∧ c.toNat ≤ 57)

/-- Digits to a natural number. -/
def digitsToNat (ds : List Char) : Nat :=
  ds.foldl (fun a c => a * 10 + (c.toNat - 48)) 0

/-- Parse a JSON number (integer or simple decimal fraction; the repository's
data never uses exponents, which this model rejects). -/
def parseNum (l : List Char) : Option (ℚ × List Char) :=
  let (neg, l1) := if l.head? = some '-' then (true, l.drop 1) else (false, l)
  let ds := l1.takeWhile isDigitB
  let rest := l1.dropWhile isDigitB
  if ds = [] then none
  else
    let intPart : ℚ := (digitsToNat ds : ℚ)
    let (val, rest2) :=
      if rest.head? = some '.' then
        let fs := (rest.drop 1).takeWhile isDigitB
        let rest' := (rest.drop 1).dropWhile isDigitB
        (intPart + (digitsToNat fs : ℚ) / ((10 : ℚ) ^ fs.length), rest')
      else (intPart, rest)
    if rest.head? = some '.' ∧ ((rest.drop 1).takeWhile isDigitB) = [] then none
    else some (if neg then -val else val, rest2)


mutual

/-- Recursive-descent JSON value parser; `fuel` bounds the nesting depth and
is instantiated with the input length. -/
def parseVal (fuel : Nat) (l : List Char) : Option (JVal × List Char) :=
  match fuel with
  | 0 => none
  | f + 1 =>
    match skipWs l with
    | [] => none
    | c :: rest =>
      if c = '"' then (parseStrBody (rest.length + 1) rest []).map
        (fun p => (JVal.jstr p.1, p.2))
      else if c = lbrace then parseObj f (skipWs rest) []
      else if c = '[' then parseArr f (skipWs rest) []
      else if startsWithL (c :: rest) ['n', 'u', 'l', 'l'] then
        some (JVal.jnull, (c :: rest).drop 4)
      else if startsWithL (c :: rest) ['t', 'r', 'u', 'e'] then
        some (JVal.jbool true, (c :: rest).drop 4)
      else if startsWithL (c :: rest) ['f', 'a', 'l', 's', 'e'] then
        some (JVal.jbool false, (c :: rest).drop 5)
      else (parseNum (c :: rest)).map (fun p => (JVal.jnum p.1, p.2))

/-- Object members parser: `l` is positioned after the opening brace or after
a comma, whitespace already skipped; `acc` holds the members read so far. -/
def parseObj (fuel : Nat) (l : List Char) (acc : List (String × JVal)) :
    Option (JVal × List Char) :=
  match fuel with
  | 0 => none
  | f + 1 =>
    match l with
    | [] => none
    | c :: rest =>
      if c = rbrace ∧ acc.isEmpty then some (JVal.jobj [], rest)
      else if c = '"' then
        match parseStrBody (rest.length + 1) rest [] with
        | none => none
        | some (k, rest2) =>
          match skipWs rest2 with
          | ':' :: rest3 =>
            match parseVal f rest3 with
            | none => none
            | some (v, rest4) =>
              let acc' := dictInsertStr acc k v
              match skipWs rest4 with
              | ',' :: rest5 => parseObj f (skipWs rest5) acc'
              | d :: rest5 => if d = rbrace then some (JVal.jobj acc', rest5) else none
              | [] => none
          | _ => none
      else none

/-- Array elements parser. -/
def parseArr (fuel : Nat) (l : List Char) (acc : List JVal) :
    Option (JVal × List Char) :=
  match fuel with
  | 0 => none
  | f + 1 =>
    match l with
    | [] => none
    | c :: rest =>
      if c = ']' ∧ acc.isEmpty then some (JVal.jarr [], rest)
      else
        match parseVal f (c :: rest) with
        | none => none
        | some (v, rest2) =>
          match skipWs rest2 with
          | ',' :: rest3 => parseArr f (skipWs rest3) (acc ++ [v])
          | ']' :: rest3 => some (JVal.jarr (acc ++ [v]), rest3)
          | _ => none

end

/-- Model of `json.loads`: parse one value, then require only whitespace to
remain (`Extra data` otherwise); `Except.error` models `json.JSONDecodeError`. -/
def jsonLoads (s : String) : Except String JVal :=
  match parseVal (s.data.length + 2) s.data with
  | some (v, rest) =>
    if skipWs rest = [] then .ok v else .error "Extra data"
  | none => .error "Expecting value"

end Json

namespace GenreUtils

open PyStr

/-- `GENRE_MAP` from `utils/genre_utils.py`, in source order (a Python dict
literal with pairwise-distinct keys; note that both "science fiction" and
"sci-fi" map to 878). -/
def GENRE_MAP : List (String × Int) :=
  [("action", 28), ("adventure", 12), ("animation", 16), ("comedy", 35),
   ("crime", 80), ("documentary", 99), ("drama", 18), ("family", 10751),
   ("fantasy", 14), ("history", 36), ("horror", 27), ("music", 10402),
   ("mystery", 9648), ("romance", 10749), ("science fiction", 878),
   ("sci-fi", 878), ("thriller", 53), ("war", 10752), ("western", 37)]

/-- Insert into an ordered int-keyed dict, overwriting in place (Python dict
semantics: a later duplicate key keeps the original position, new value). -/
def dictInsertInt (l : List (Int × String)) (k : Int) (v : String) :
    List (Int × String) :=
  if l.any (fun p => p.1 = k) then
    l.map (fun p => if p.1 = k then (k, v) else p)
  else l ++ [(k, v)]

/-- `GENRE_ID_TO_NAME = {v: k for k, v in GENRE_MAP.items()}`: built in
insertion order, so the duplicate id 878 ends up mapped to "sci-fi". -/
def GENRE_ID_TO_NAME : List (Int × String) :=
  GENRE_MAP.foldl (fun acc p => dictInsertInt acc p.2 p.1) []

/-- `GENRE_MAP.get(name)`. -/
def genreMapGet (name : String) : Option Int :=
  (GENRE_MAP.find? (fun p => p.1 = name)).map (·.2)

/-- `GENRE_ID_TO_NAME.get(id, "unknown")`. -/
def genreIdGet (i : Int) : String :=
  ((GENRE_ID_TO_NAME.find? (fun p => p.1 = i)).map (·.2)).getD "unknown"

/-- `genre_names_to_ids`: keep `GENRE_MAP.get(name.lower())` for each name
when the looked-up value is truthy (no genre id is 0, but the truthiness test
of the source is kept). -/
def genre_names_to_ids (names : List String) : List Int :=
  names.filterMap (fun name =>
    match genreMapGet (pyLower name) with
    | some i => if i ≠ 0 then some i else none
    | none => none)

/-- `genre_ids_to_names`: `GENRE_ID_TO_NAME.get(id, "unknown").title()` for
each id. -/
def genre_ids_to_names (ids : List Int) : List String :=
  ids.map (fun i => pyTitle (genreIdGet i))

/-- `is_valid_genre`: `name.lower() in GENRE_MAP`. -/
def is_valid_genre (name : String) : Bool :=
  GENRE_MAP.any (fun p => p.1 = pyLower name)

end GenreUtils

namespace Movie

open PyStr GenreUtils

/-- Model of Python's global `random` generator: a deterministic state with a
`seed` operation and one `uniform(-0.1, 0.1)` draw.  Only two facts about the
real Mersenne Twister are relied upon: seeding makes the subsequent stream a
function of the seed alone, and an unseeded generator continues from whatever
state it happens to hold. -/
structure Rng where
  state : Nat
deriving DecidableEq, Repr

/-- One `random.uniform(-0.1, 0.1)` draw (a linear-congruential model). -/
def Rng.next (r : Rng) : ℚ × Rng :=
  let s := (1103515245 * r.state + 12345) % 2147483648
  (((s : ℚ) / 2147483648) * (1 / 5) - 1 / 10, ⟨s⟩)

/-- `random.seed(n)`. -/
def Rng.seedFrom (n : Int) : Rng := ⟨n.natAbs % 2147483648⟩

/-- A movie payload as stored in Qdrant: the fields the source reads, plus a
count of any other keys (used only for the Python truthiness of the dict).
`none` models an absent key. -/
structure MovieRecord where
  title : Option String := none
  original_title : Option String := none
  tmdb_id : Option Int := none
  release_date : Option String := none
  vote_average : Option ℚ := none
  popularity : Option ℚ := none
  vote_count : Option ℚ := none
  genre_ids : Option (List Int) := none
  overview : Option String := none
  similarity_score : Option ℚ := none
  extraKeys : Nat := 0
deriving DecidableEq, Repr

/-- Python truthiness of the payload dict: falsy exactly when empty. -/
def MovieRecord.isPyEmpty (m : MovieRecord) : Bool :=
  m.title = none ∧ m.original_title = none ∧ m.tmdb_id = none ∧
  m.release_date = none ∧ m.vote_average = none ∧ m.popularity = none ∧
  m.vote_count = none ∧ m.genre_ids = none ∧ m.overview = none ∧
  m.similarity_score = none ∧ m.extraKeys = 0

/-- Truthiness of `movie.get('title')`. -/
def MovieRecord.titleTruthy (m : MovieRecord) : Bool :=
  match m.title with
  | some t => t ≠ ""
  | none => false

/-- An element of a candidate list: a payload dict, or some non-dict value
(which `_score_and_rank` skips and `.get` calls elsewhere choke on). -/
inductive Candidate where
  | dict (m : MovieRecord) : Candidate
  | nonDict : Candidate
deriving DecidableEq, Repr

/-- A scored entry as built by `_score_and_rank` (the dict appended to
`scored`). -/
structure RankedMovie where
  title : String
  original_title : String
  tmdb_id : Option Int
  year : String
  rating : ℚ
  popularity : ℚ
  vote_count : ℚ
  genres : List String
  overview : String
  score : ℚ
  raw_payload : MovieRecord
deriving DecidableEq, Repr

/-- The slice of Streamlit session state the searcher reads. -/
structure Session where
  recommendations : List RankedMovie := []
  preferred_genres : List String := []
  disliked_genres : List String := []
deriving DecidableEq, Repr

/-- Round half to even at integer precision (CPython's `round`). -/
def roundHalfEvenInt (q : ℚ) : ℤ :=
  let f := ⌊q⌋
  if q - f < 1 / 2 then f
  else if q - f > 1 / 2 then f + 1
  else if f % 2 = 0 then f else f + 1

/-- `round(x, 2)` on the exact rational value. -/
def pyRound2 (q : ℚ) : ℚ := (roundHalfEvenInt (q * 100) : ℚ) / 100

/-- The seed `_score_and_rank` computes for a truthy context hash:
`int(context_hash[:8], 16) if len(context_hash) >= 8 else hash(context_hash)`;
`none` models the exception swallowed by the bare `except: pass`, which
leaves the generator unseeded. -/
def seedOfContextHash (h : String) : Option Int :=
  if 8 ≤ h.data.length then (parseHexL (h.data.take 8)).map Int.ofNat
  else some (pyHash h)

/-- Python truthiness of the optional `context_hash` argument. -/
def ctxTruthy (contextHash : Option String) : Bool :=
  match contextHash with
  | some h => h ≠ ""
  | none => false

/-- `movie.get('release_date', '')[:4] if movie.get('release_date') else 'N/A'`. -/
def yearOf (m : MovieRecord) : String :=
  match m.release_date with
  | some d => if d ≠ "" then ⟨d.data.take 4⟩ else "N/A"
  | none => "N/A"

/-- The body of the scoring loop for one validated movie: returns the scored
entry and the advanced generator state. -/
def scoreOne (personalize : Bool) (contextHash : Option String)
    (useSemanticScores : Bool) (session : Session) (m : MovieRecord)
    (rng : Rng) : RankedMovie × Rng :=
  let semantic_score : ℚ :=
    if useSemanticScores ∧ m.similarity_score ≠ none then
      (m.similarity_score.getD 0) * 10.0
    else 0
  let rating := m.vote_average.getD 0
  let popularity := m.popularity.getD 0
  let vote_count := m.vote_count.getD 0
  let rating_score : ℚ :=
    rating * 0.7 + popularity * 0.003 + min (vote_count / 1000) 1.0 * 0.5
  let base_score : ℚ :=
    if useSemanticScores ∧ semantic_score > 0 then
      semantic_score * 0.6 + rating_score * 0.4
    else rating_score
  let (variation, rng') :=
    if ctxTruthy contextHash then rng.next else ((0 : ℚ), rng)
  let movie_genres := (genre_ids_to_names (m.genre_ids.getD [])).dedup
  let personalization_score : ℚ :=
    if personalize then
      ((movie_genres.filter (fun g => g ∈ session.preferred_genres)).length : ℚ) * 0.5
        - ((movie_genres.filter (fun g => g ∈ session.disliked_genres)).length : ℚ) * 0.8
    else 0
  let final_score := base_score + personalization_score + variation
  ({ title := m.title.getD "Unknown"
     original_title := m.original_title.getD ""
     tmdb_id := m.tmdb_id
     year := yearOf m
     rating := rating
     popularity := popularity
     vote_count := vote_count
     genres := genre_ids_to_names (m.genre_ids.getD [])
     overview := m.overview.getD "No description available"
     score := pyRound2 final_score
     raw_payload := m }, rng')

/-- One fold step of the scoring loop: append the scored entry (unless the
payload dict is falsy) and advance the generator state. -/
def scoreStep (personalize : Bool) (contextHash : Option String)
    (useSemanticScores : Bool) (session : Session)
    (acc : List RankedMovie × Rng) (m : MovieRecord) :
    List RankedMovie × Rng :=
  ((if m.isPyEmpty then acc.1
    else acc.1 ++ [(scoreOne personalize contextHash useSemanticScores session m acc.2).1]),
   (scoreOne personalize contextHash useSemanticScores session m acc.2).2)

/-- Stable descending insertion: a new entry goes after every already-placed
entry whose score is not smaller. -/
def insertDesc (r : RankedMovie) : List RankedMovie → List RankedMovie
  | [] => [r]
  | x :: xs => if x.score < r.score then r :: x :: xs else x :: insertDesc r xs

/-- Stable sort by score descending, the model of
`scored.sort(key=lambda x: x['score'], reverse=True)` (CPython's sort is
stable; this structural insertion sort computes the same permutation). -/
def sortByScoreDesc (l : List RankedMovie) : List RankedMovie :=
  l.foldl (fun acc r => insertDesc r acc) []

/-- `MovieSearcher._score_and_rank` from `tools/movie_search.py`: validate
candidates (drop non-dicts and falsy titles), optionally seed the generator
from the context hash, score each movie (drawing jitter only when the context
hash is truthy, and skipping entries whose `raw_payload` is falsy), sort by
score descending (stably, as `list.sort` does), truncate to `limit`, and
re-validate that every surviving entry still carries a truthy raw payload. -/
def scoreAndRank (movies : List Candidate) (limit : Nat) (personalize : Bool)
    (contextHash : Option String) (useSemanticScores : Bool)
    (session : Session) (rng0 : Rng) : List RankedMovie :=
  let valid_movies := movies.filterMap (fun c =>
    match c with
    | .nonDict => none
    | .dict m => if m.titleTruthy then some m else none)
  if valid_movies.isEmpty then []
  else
    let rng1 :=
      if ctxTruthy contextHash then
        match seedOfContextHash ((contextHash).getD "") with
        | some n => Rng.seedFrom n
        | none => rng0
      else rng0
    let scored := (valid_movies.foldl
      (scoreStep personalize contextHash useSemanticScores session)
      ([], rng1)).1
    let sorted := sortByScoreDesc scored
    let result := sorted.take limit
    result.filter (fun r => ¬ r.raw_payload.isPyEmpty)

/-- The context hashes under which the scoring jitter is reproducible: no
hash, an empty hash, or one whose seed computation does not raise (first 8
characters hex, or shorter than 8 characters and hashed). -/
def ctxSeedIndependent : Option String → Bool
  | none => true
  | some h => h = "" || (seedOfContextHash h).isSome

end Movie

namespace Search

open PyStr GenreUtils Movie

/-- The environment `MovieSearcher.search_by_genres` runs in: one observed
behaviour of each external collaborator for this call (`Except.error` models
an exception raised by that stage), plus the session state and the state of
the global random generator. -/
structure SearchEnv where
  cacheGet : Except String (Option (List RankedMovie))
  encodeQuery : Except String (Option (List ℚ))
  semanticSearch : Except String (List Candidate)
  filterSearch : Except String (List Candidate)
  session : Session := {}
  rng : Rng := ⟨0⟩

/-- Python truthiness of the optional `query_text` argument combined with
`query_text.strip()` (the `use_semantic` test of the source). -/
def queryTruthy (queryText : Option String) : Bool :=
  match queryText with
  | some q => q ≠ "" ∧ pyStrip q ≠ ""
  | none => false

/-- The semantic-search sub-stage (the inner `try` of the source): `none`
means the stage was skipped or failed, so the caller falls through to the
filter-based search. -/
def semanticAttempt (env : SearchEnv) (queryText : Option String) :
    Option (List Candidate) :=
  if queryTruthy queryText then
    match env.encodeQuery with
    | .error _ => none
    | .ok ovec =>
      match ovec with
      | some v =>
        if v.isEmpty then none
        else
          match env.semanticSearch with
          | .error _ => none
          | .ok ms => some ms
      | none => none
  else none

/-- The body of `search_by_genres` inside its outer `try`; an `Except.error`
is an exception reaching the outer handler. -/
def searchByGenresE (env : SearchEnv) (genreNames : List String) (limit : Nat)
    (personalize : Bool) (contextHash : Option String)
    (queryText : Option String) : Except String (List RankedMovie) := do
  let cached ← env.cacheGet
  if ((match cached with | some l => ¬ l.isEmpty | none => false) && ¬ personalize) then
    return cached.getD []
  else
    let genre_ids := genre_names_to_ids genreNames
    if genre_ids.isEmpty then
      return []
    else
      let (movies, use_semantic) ←
        match semanticAttempt env queryText with
        | some ms => pure (ms, true)
        | none => do
          let ms ← env.filterSearch
          pure (ms, false)
      if movies.isEmpty then
        return []
      else
        let titled ← movies.mapM (fun c =>
          match c with
          | .nonDict => Except.error "AttributeError"
          | .dict m => Except.ok m)
        let prevTitles := env.session.recommendations.filterMap
          (fun r => if r.title ≠ "" then some r.title else none)
        let filtered := titled.filter (fun m =>
          match m.title with
          | some t => ¬ t ∈ prevTitles
          | none => true)
        let chosen :=
          if filtered.length < limit ∧ titled.length > filtered.length then titled
          else filtered
        return scoreAndRank (chosen.map .dict) limit personalize contextHash
          use_semantic env.session env.rng

/-- `MovieSearcher.search_by_genres`: the outer handler turns any exception
into an empty list (no fallback to other data sources). -/
def searchByGenres (env : SearchEnv) (genreNames : List String) (limit : Nat)
    (personalize : Bool) (contextHash : Option String)
    (queryText : Option String) : List RankedMovie :=
  match searchByGenresE env genreNames limit personalize contextHash queryText with
  | .ok l => l
  | .error _ => []

end Search

namespace Mood

open PyStr Json

/-- Brace matching as in `_parse_response`: scan, incrementing on each
opening and decrementing on each closing brace; return the index of the
character where the count first reaches zero. -/
def braceMatch (l : List Char) : Option Nat :=
  go l 0 0
where
  go : List Char → Int → Nat → Option Nat
  | [], _, _ => none
  | c :: rest, count, idx =>
    if c = lbrace then go rest (count + 1) (idx + 1)
    else if c = rbrace then
      if count - 1 = 0 then some idx else go rest (count - 1) (idx + 1)
    else go rest count (idx + 1)

/-- The reasoning-tag names the primary cleanup removes (the source lists
`think` twice; the repetition is a no-op). -/
def reasoningTags : List String :=
  ["think", "reasoning", "think", "thought", "analysis"]

/-- Apply all reasoning-tag removals in order. -/
def removeReasoningTags (s : String) : String :=
  reasoningTags.foldl (fun acc tag => removeTag acc tag) s

/-- Step 4 of `_parse_response`: strip, then force the string to start with
an opening and end with a closing brace where possible. -/
def step4 (s : String) : String :=
  let j := pyStrip s
  let j :=
    if ¬ startsWithL j.data [lbrace] then
      match findCharL j.data lbrace with
      | some fb => ⟨j.data.drop fb⟩
      | none => j
    else j
  if ¬ (j.data.getLast? = some rbrace) then
    match rfindCharL j.data rbrace with
    | some lb => ⟨j.data.take (lb + 1)⟩
    | none => j
  else j

/-- Steps 1-4 of `_parse_response`: fence removal, strip, reasoning-tag
removal, balanced-brace extraction from the first opening brace (with the
`rfind` fallback), and the final cleanup — the string handed to `json.loads`
on the primary path. -/
def primaryJsonStr (response : String) : String :=
  let cleaned := pyStrip (pyReplace (pyReplace response "```json" "") "```" "")
  let cleaned := removeReasoningTags cleaned
  let cl := cleaned.data
  match findCharL cl lbrace with
  | some fb =>
    let fromBrace := cl.drop fb
    let json1 :=
      match braceMatch fromBrace with
      | some i => fromBrace.take (i + 1)
      | none =>
        match rfindCharL fromBrace rbrace with
        | some lb => fromBrace.take (lb + 1)
        | none => fromBrace
    step4 ⟨json1⟩
  | none =>
    if cl.isEmpty then "" else step4 ⟨cl⟩

/-- The aggressive second pass after a decode error: re-extract a balanced
span starting at the *last* opening brace of the raw response. -/
def aggressiveExtract (response : String) : Option String :=
  match rfindCharL response.data lbrace with
  | some lb =>
    let potential := response.data.drop lb
    match braceMatch potential with
    | some i => some ⟨potential.take (i + 1)⟩
    | none => none
  | none => none

/-- The required-field names checked by `_parse_response`. -/
def requiredFields : List String :=
  ["detected_moods", "intensity_score", "emotion_type", "summary",
   "recommended_genres"]

/-- Python equality between a decoded JSON value and a string. -/
def jvalEqStr : JVal → String → Bool
  | .jstr s, t => s = t
  | _, _ => false

/-- `field in result` on a decoded JSON value (`TypeError` on values that do
not support membership tests). -/
def pyIn (field : String) : JVal → Except String Bool
  | .jobj fields => .ok (fields.any (fun p => p.1 = field))
  | .jarr xs => .ok (xs.any (fun x => jvalEqStr x field))
  | .jstr s => .ok (pyContains s field)
  | _ => .error "TypeError: argument is not iterable"

/-- Overwrite the value of an existing key, keeping its position. -/
def dictSet (fields : List (String × JVal)) (k : String) (v : JVal) :
    List (String × JVal) :=
  fields.map (fun p => if p.1 = k then (k, v) else p)

/-- The clamp `result['intensity_score'] = max(0, min(100, ...))`; a
non-numeric value raises (`TypeError`), a boolean behaves as its integer
value. -/
def clampIntensity (fields : List (String × JVal)) :
    Except String (List (String × JVal)) :=
  match dictGet fields "intensity_score" with
  | some (.jnum q) => .ok (dictSet fields "intensity_score" (.jnum (max 0 (min 100 q))))
  | some (.jbool b) => .ok (dictSet fields "intensity_score" (.jnum (if b then 1 else 0)))
  | some _ => .error "TypeError: comparison not supported"
  | none => .error "KeyError"

/-- `MoodAnalyzer._parse_response`: primary extraction and strict JSON parse
with field validation and intensity clamping; on a decode error only, one
aggressive re-extraction from the last opening brace whose successful parse
is returned as-is (no field validation, no clamping); every other failure
propagates. -/
def parseResponse (response : String) : Except String JVal :=
  match jsonLoads (primaryJsonStr response) with
  | .ok result => do
    let missing ← requiredFields.foldlM
      (fun acc f => do
        let b ← pyIn f result
        pure (if b then acc else acc ++ [f]))
      []
    if ¬ missing.isEmpty then
      .error "ValueError: missing required fields"
    else
      match result with
      | .jobj fields => do
        let fields' ← clampIntensity fields
        return JVal.jobj fields'
      | _ => .error "TypeError: value is not subscriptable"
  | .error e =>
    match aggressiveExtract response with
    | some s =>
      match jsonLoads s with
      | .ok result2 => .ok result2
      | .error _ => .error e
    | none => .error e

/-- A JSON array of strings (shorthand for the fallback tables). -/
def jstrs (l : List String) : JVal := .jarr (l.map .jstr)

/-- `MoodAnalyzer._fallback_analysis`: the rule-based keyword classifier,
checked in source order (grief first, default neutral last). -/
def fallbackAnalysis (text : String) : JVal :=
  let t := pyLower text
  let has : List String → Bool := fun ws => ws.any (fun w => pyContains t w)
  if has ["meninggal", "wafat", "berpulang", "tiada", "pergi", "hilang",
          "kehilangan", "kematian", "mati"] then
    .jobj [("detected_moods", jstrs ["sedih", "sakit"]),
           ("intensity_score", .jnum 95),
           ("emotion_type", .jstr "negative"),
           ("summary", .jstr "Saya turut berduka cita. Semoga Anda dan keluarga diberi kekuatan di masa sulit ini."),
           ("recommended_genres", jstrs ["Drama", "Family", "Animation", "Fantasy"])]
  else if has ["sakit", "pusing", "demam", "flu", "batuk", "pilek"] then
    .jobj [("detected_moods", jstrs ["sakit", "lelah"]),
           ("intensity_score", .jnum 70),
           ("emotion_type", .jstr "negative"),
           ("summary", .jstr "Semoga lekas sembuh ya! Istirahat yang cukup dan jaga kesehatan."),
           ("recommended_genres", jstrs ["Comedy", "Animation", "Family"])]
  else if has ["capek", "lelah", "tired", "penat", "letih"] then
    .jobj [("detected_moods", jstrs ["lelah"]),
           ("intensity_score", .jnum 65),
           ("emotion_type", .jstr "negative"),
           ("summary", .jstr "Sepertinya butuh istirahat nih. Yuk santai dengan film ringan!"),
           ("recommended_genres", jstrs ["Comedy", "Family", "Animation"])]
  else if has ["sedih", "sad", "galau", "murung", "terpuruk", "down",
               "depresi", "putus asa"] then
    .jobj [("detected_moods", jstrs ["sedih"]),
           ("intensity_score", .jnum 75),
           ("emotion_type", .jstr "negative"),
           ("summary", .jstr "Ada yang mengganjal ya? Film yang tepat bisa bantu memperbaiki mood."),
           ("recommended_genres", jstrs ["Comedy", "Animation", "Drama", "Family"])]
  else if has ["senang", "happy", "gembira", "bahagia", "joy", "excited",
               "semangat"] then
    .jobj [("detected_moods", jstrs ["senang", "excited"]),
           ("intensity_score", .jnum 80),
           ("emotion_type", .jstr "positive"),
           ("summary", .jstr "Senang banget! Mood bagus nih, cocok nonton film seru!"),
           ("recommended_genres", jstrs ["Adventure", "Comedy", "Action", "Animation"])]
  else if has ["marah", "kesal", "frustrasi", "jengkel", "geram", "angry", "mad"] then
    .jobj [("detected_moods", jstrs ["marah", "frustrasi"]),
           ("intensity_score", .jnum 70),
           ("emotion_type", .jstr "negative"),
           ("summary", .jstr "Tenang dulu ya. Film yang menghibur bisa bantu meredakan emosi."),
           ("recommended_genres", jstrs ["Comedy", "Action", "Adventure"])]
  else if has ["cemas", "khawatir", "anxiety", "worried", "takut", "nervous"] then
    .jobj [("detected_moods", jstrs ["cemas"]),
           ("intensity_score", .jnum 65),
           ("emotion_type", .jstr "negative"),
           ("summary", .jstr "Jangan terlalu khawatir. Film yang menenangkan bisa membantu."),
           ("recommended_genres", jstrs ["Drama", "Family", "Animation", "Fantasy"])]
  else if has ["bosan", "boring", "monoton", "jenuh"] then
    .jobj [("detected_moods", jstrs ["bosan"]),
           ("intensity_score", .jnum 55),
           ("emotion_type", .jstr "neutral"),
           ("summary", .jstr "Wah, butuh sesuatu yang seru nih! Yuk cari film yang menarik!"),
           ("recommended_genres", jstrs ["Action", "Adventure", "Thriller", "Comedy"])]
  else
    .jobj [("detected_moods", jstrs ["netral"]),
           ("intensity_score", .jnum 50),
           ("emotion_type", .jstr "neutral"),
           ("summary", .jstr "Baik, saya siap membantu menemukan film yang cocok untukmu!"),
           ("recommended_genres", jstrs ["Comedy", "Drama", "Adventure"])]

/-- `LLMManager.invoke_with_retry`, instrumented with the list of back-off
sleeps performed: attempt `i` failing with `i < max_retries - 1` sleeps
`2 ** i` seconds and retries; the last failure re-raises the last error. -/
def invokeWithRetryAux (attempts : Nat → Except String String)
    (maxRetries : Nat) (i : Nat) (fuel : Nat) :
    Except String String × List Nat :=
  match fuel with
  | 0 => (.error "TypeError: exceptions must derive from BaseException", [])
  | f + 1 =>
    match attempts i with
    | .ok r => (.ok r, [])
    | .error e =>
      if i < maxRetries - 1 then
        let (res, sl) := invokeWithRetryAux attempts maxRetries (i + 1) f
        (res, 2 ^ i :: sl)
      else (.error e, [])

/-- `invoke_with_retry` with its observed attempt outcomes. -/
def invokeWithRetry (attempts : Nat → Except String String)
    (maxRetries : Nat) : Except String String × List Nat :=
  invokeWithRetryAux attempts maxRetries 0 maxRetries

/-- Python truthiness of a decoded JSON value (for the `if cached:` test). -/
def jvalTruthy : JVal → Bool
  | .jnull => false
  | .jbool b => b
  | .jnum q => q ≠ 0
  | .jstr s => s ≠ ""
  | .jarr xs => ¬ xs.isEmpty
  | .jobj fields => ¬ fields.isEmpty

/-- The environment `MoodAnalyzer.analyze` runs in: the cached analysis
looked up for this text (consulted only when no conversation history is
given) and the outcome of each LLM attempt. -/
structure AnalyzeEnv where
  cacheGet : Except String (Option JVal)
  attempts : Nat → Except String String

/-- The body of `analyze` inside its `try`: cache check (bypassed when a
conversation history is present), LLM call with retry, response parsing
(the prompt built from the text feeds only the external LLM, so it does not
appear in the model). -/
def analyzeE (env : AnalyzeEnv) (_text : String)
    (history : List (String × String)) : Except String JVal := do
  let cached ←
    if history.isEmpty then env.cacheGet else pure none
  match cached with
  | some v =>
    if jvalTruthy v then return v
    else do
      let response ← (invokeWithRetry env.attempts 3).1
      parseResponse response
  | none => do
    let response ← (invokeWithRetry env.attempts 3).1
    parseResponse response

/-- `MoodAnalyzer.analyze` as its caller observes it: every exception inside
the body is caught and replaced by the rule-based fallback analysis, so the
call always produces a mood judgment. -/
def analyzeRun (env : AnalyzeEnv) (text : String)
    (history : List (String × String)) : Except String JVal :=
  match analyzeE env text history with
  | .ok v => .ok v
  | .error _ => .ok (fallbackAnalysis text)

end Mood

namespace Review

open PyStr Json

/-- The apostrophe character (via its code point). -/
def apos : Char := Char.ofNat 39

/-- An element of a review list of arbitrary shape: a string, or some other
object with its truthiness and its `str()` rendering. -/
inductive PyItem where
  | pstr (s : String) : PyItem
  | pobj (truthy : Bool) (objRepr : String) : PyItem
deriving DecidableEq, Repr

/-- `str(item)`. -/
def pyItemStr : PyItem → String
  | .pstr s => s
  | .pobj _ r => r

/-- Python truthiness of an item. -/
def pyItemTruthy : PyItem → Bool
  | .pstr s => s ≠ ""
  | .pobj t _ => t

/-- The arbitrary-shaped `raw_reviews` argument of `summarize`: `None`, a
string, a list, or some other object with its truthiness. -/
inductive RawReviews where
  | rnone : RawReviews
  | rstr (s : String) : RawReviews
  | rlist (xs : List PyItem) : RawReviews
  | robj (truthy : Bool) : RawReviews
deriving DecidableEq, Repr

/-- Python truthiness of `raw_reviews`. -/
def rawTruthy : RawReviews → Bool
  | .rnone => false
  | .rstr s => s ≠ ""
  | .rlist xs => ¬ xs.isEmpty
  | .robj t => t

/-- `str()` of a JSON-decoded value (numeric and container renderings are
approximate; only strings matter to the repository's data and the claims). -/
def jsonValStr : JVal → String
  | .jstr s => s
  | .jnull => "None"
  | .jbool b => if b then "True" else "False"
  | .jnum q => if q.den = 1 then toString q.num else toString q
  | .jarr _ => "[...]"
  | .jobj _ => "\x7b...\x7d"

/-- `ReviewSummarizer._normalize_reviews`: normalize an arbitrary shape to at
most six non-blank review strings. -/
def normalizeReviews (raw : RawReviews) : List String :=
  if ¬ rawTruthy raw then []
  else
    match raw with
    | .rnone => []
    | .robj _ => []
    | .rlist xs =>
      ((xs.filterMap (fun it =>
        let s := pyStrip (pyItemStr it)
        if pyItemTruthy it ∧ s ≠ "" then some s else none))).take 6
    | .rstr s0 =>
      let text := pyStrip s0
      if text = "" ∨ pyLower text = "null" then []
      else
        let reviews :=
          match jsonLoads text with
          | .ok (.jarr xs) =>
            ((xs.map (fun x => pyStrip (jsonValStr x))).filter (fun r => r ≠ ""))
          | .ok _ => [text]
          | .error _ =>
            if pyContains text "|||" then
              ((text.splitOn "|||").map pyStrip).filter (fun r => r ≠ "")
            else if pyContains text "\n" ∨ pyContains text ";" ∨ pyContains text "|" then
              ((splitAnyL [';', '\n', '|'] text.data).map (fun l => pyStrip ⟨l⟩)).filter
                (fun r => r ≠ "")
            else if 10 < text.data.length then [text] else []
        reviews.take 6

/-- The positive sentiment lexicon of `_fallback_summary`. -/
def positiveWords : List String :=
  ["good", "great", "amazing", "excellent", "love", "best",
   "bagus", "keren", "mantap", "seru", "recommended"]

/-- The negative sentiment lexicon of `_fallback_summary`. -/
def negativeWords : List String :=
  ["bad", "poor", "boring", "waste", "disappointing",
   "jelek", "buruk", "mengecewakan", "membosankan"]

/-- `ReviewSummarizer._fallback_summary`: keyword-count heuristic over the
joined, lower-cased review text. -/
def fallbackSummary (reviews : List String) : String :=
  let text_combined := pyLower (String.intercalate " " reviews)
  let positive_count := (positiveWords.filter (fun w => pyContains text_combined w)).length
  let negative_count := (negativeWords.filter (fun w => pyContains text_combined w)).length
  if positive_count > negative_count then "Netizen bilang filmnya bagus banget!"
  else if negative_count > positive_count then "Netizen ada yang kurang suka sih..."
  else "Netizen pendapatnya beragam tentang film ini."

/-- `re.sub` removal of leading quote runs and trailing comma/quote runs. -/
def stripQuotes (s : String) : String :=
  let l := s.data.dropWhile (fun c => c = '"' ∨ c = apos)
  ⟨(l.reverse.dropWhile (fun c => c = ',' ∨ c = '"' ∨ c = apos)).reverse⟩

/-- `re.search(r'^[^.!?]+[.!?]', s)`: the first sentence, when the string
starts with at least one non-terminator character followed by a terminator. -/
def firstSentenceL (l : List Char) : Option (List Char) :=
  let pre := l.takeWhile (fun c => ¬ (c = '.' ∨ c = '!' ∨ c = '?'))
  let rest := l.dropWhile (fun c => ¬ (c = '.' ∨ c = '!' ∨ c = '?'))
  match pre, rest with
  | [], _ => none
  | _ :: _, t :: _ => some (pre ++ [t])
  | _ :: _, [] => none

/-- The "reasoning leakage" tokens checked against the first three words. -/
def reasoningKeywords : List String :=
  ["okay", "let", "tackle", "user", "wants", "reviews", "combine"]

/-- The final cleanup of `_generate_summary`: when the first three words
contain a reasoning keyword, re-scan sentence by sentence for the first
stripped sentence longer than 20 characters whose first three words do not. -/
def reasoningKeywordFix (summary : String) : String :=
  let first_words := (pySplitWs (pyLower summary)).take 3
  if reasoningKeywords.any (fun k => first_words.any (fun w => w = k)) then
    let sentences := (splitRuns ['.', '!', '?'] summary).map pyStrip
    match sentences.find? (fun sen =>
      sen ≠ "" ∧ 20 < sen.data.length ∧
        ¬ reasoningKeywords.any (fun k =>
          ((pySplitWs (pyLower sen)).take 3).any (fun w => w = k))) with
    | some sen => sen
    | none => summary
  else summary

/-- `ReviewSummarizer._generate_summary`: one LLM call (its outcome is the
`invoke` argument), post-processing of the response, and the heuristic
fallback on failure or on an out-of-bounds final length. -/
def generateSummary (invoke : Except String String) (reviews : List String) :
    String :=
  match invoke with
  | .error _ => fallbackSummary reviews
  | .ok response =>
    let summary := pyStrip response
    let summary :=
      ["think", "reasoning", "think", "thought"].foldl
        (fun acc tag => removeTag acc tag) summary
    let summary := pyStrip (pyReplace summary "```" "")
    let summary := stripQuotes summary
    let summary :=
      if 200 < summary.data.length then
        match firstSentenceL summary.data with
        | some sen => pyStrip ⟨sen⟩
        | none =>
          let first_line := pyStrip ⟨(splitAnyL ['\n'] summary.data).headD []⟩
          if 0 < first_line.data.length ∧ first_line.data.length ≤ 200 then first_line
          else pyStrip ⟨summary.data.take 150⟩
      else summary
    let summary := reasoningKeywordFix summary
    if summary ≠ "" ∧ summary.data.length ≤ 200 ∧ 10 < summary.data.length then
      summary
    else fallbackSummary reviews

/-- The environment `summarize` runs in: the cached summary looked up for
this input and the outcome of the single LLM call. -/
structure SummEnv where
  cacheGet : Except String (Option String)
  invoke : Except String String

/-- The body of `summarize` inside its `try`, instrumented with whether the
LLM was consulted; an `Except.error` is an exception reaching the outer
handler. -/
def summarizeE (env : SummEnv) (raw : RawReviews) :
    Except String (String × Bool) := do
  let cached ← env.cacheGet
  match cached with
  | some c =>
    if c ≠ "" then return (c, false)
    else
      let reviews := normalizeReviews raw
      if reviews.isEmpty then return ("Belum ada ulasan.", false)
      else return (generateSummary env.invoke reviews, true)
  | none =>
    let reviews := normalizeReviews raw
    if reviews.isEmpty then return ("Belum ada ulasan.", false)
    else return (generateSummary env.invoke reviews, true)

/-- `ReviewSummarizer.summarize`: the outer handler turns any escaping
exception into the fixed fallback sentence, so a string always comes back. -/
def summarize (env : SummEnv) (raw : RawReviews) : String :=
  match summarizeE env raw with
  | .ok p => p.1
  | .error _ => "Netizen bilang filmnya bagus!"

end Review

namespace Chat

open PyStr

/-- The new-search override phrases of `is_new_search_request`, in source
order. -/
def newSearchPatterns : List String :=
  ["cari film lain", "cari lagi", "film lain", "rekomendasi lain",
   "yang lain", "cari yang lain", "cari film lainnya", "film lainnya",
   "rekomendasi lainnya", "cari lagi film", "cari film baru", "film baru",
   "rekomendasi baru", "cari film yang lain", "tolong cari", "bisa cari",
   "bisa cari film", "cari film", "cari lagi film", "cari film lain dong",
   "cari film lain lagi"]

/-- `is_new_search_request`: substring match of any pattern against the
lower-cased, stripped input. -/
def isNewSearchRequest (userInput : String) : Bool :=
  let u := pyStrip (pyLower userInput)
  newSearchPatterns.any (fun p => pyContains u p)

/-- The positive keywords of `parse_confirmation_response`. -/
def positiveKeywords : List String :=
  ["ya", "yup", "yes", "ok", "oke", "baik", "silahkan", "tampilkan", "mau",
   "ingin"]

/-- The negative keywords. -/
def negativeKeywords : List String :=
  ["tidak", "no", "nope", "skip", "lewati", "tidak mau", "enggak"]

/-- The change-request keywords. -/
def changeKeywords : List String :=
  ["ubah", "ganti", "change", "lain", "beda", "bisa", "boleh"]

/-- The genre keywords treated as change requests. -/
def genreKeywords : List String :=
  ["action", "comedy", "drama", "horror", "romance", "thriller", "sci-fi",
   "fantasy"]

/-- The short confirmation words accepted next to a bare "cari". -/
def cariConfirmWords : List String := ["ya", "ok", "oke", "baik", "saja", "sih"]

/-- `parse_confirmation_response` from `ui/chat_components.py`: new-search
override first, then positive, then the "cari" special case, then negative,
change and genre keywords, all as substring tests on the lower-cased,
stripped input. -/
def parseConfirmationResponse (userInput : String) : Option String :=
  let u := pyStrip (pyLower userInput)
  if isNewSearchRequest userInput then none
  else if positiveKeywords.any (fun k => pyContains u k) then some "yes"
  else if pyContains u "cari" ∧ (pySplitWs u).length ≤ 3 ∧
      cariConfirmWords.any (fun k => pyContains u k) then some "yes"
  else if negativeKeywords.any (fun k => pyContains u k) then some "no"
  else if changeKeywords.any (fun k => pyContains u k) then some "change"
  else if genreKeywords.any (fun k => pyContains u k) then some "change"
  else none

end Chat

namespace SessionMgr

open Movie

/-- The value found under a movie's `raw_payload` key: the Qdrant payload
dict, or some other (non-mapping) object with its truthiness. -/
inductive RPVal where
  | pdict (m : MovieRecord) : RPVal
  | pother (truthy : Bool) : RPVal
deriving DecidableEq, Repr

/-- Python truthiness of a `raw_payload` value. -/
def rpTruthy : RPVal → Bool
  | .pdict m => ¬ m.isPyEmpty
  | .pother t => t

/-- A movie dict as handed to `add_recommendations`. -/
structure RecDict where
  title : Option String := none
  tmdb_id : Option Int := none
  raw_payload : Option RPVal := none
deriving DecidableEq, Repr

/-- A list element handed to `add_recommendations`: a dict or some non-dict
value. -/
inductive RecInput where
  | rdict (d : RecDict) : RecInput
  | rnonDict : RecInput
deriving DecidableEq, Repr

/-- Truthiness of an optional title field. -/
def titleTruthyOpt : Option String → Bool
  | some t => t ≠ ""
  | none => false

/-- The validation applied to each entry by `add_recommendations`: must be a
dict, carry a truthy mapping-typed `raw_payload`, a truthy title, and a
truthy `tmdb_id` (taken from the top level or, when that is falsy, from the
raw payload). -/
def validCheck : RecInput → Option RecDict
  | .rnonDict => none
  | .rdict d =>
    match d.raw_payload with
    | none => none
    | some rp =>
      if ¬ rpTruthy rp then none
      else
        match rp with
        | .pother _ => none
        | .pdict m =>
          if ¬ titleTruthyOpt d.title then none
          else
            let tmdb :=
              match d.tmdb_id with
              | some v => if v ≠ 0 then some v else m.tmdb_id
              | none => m.tmdb_id
            match tmdb with
            | some v => if v ≠ 0 then some d else none
            | none => none

/-- The slice of session state `add_recommendations` touches. -/
structure SessState where
  recommendations : List RecDict := []
  total_movies_recommended : Nat := 0
deriving DecidableEq, Repr

/-- `SessionManager.add_recommendations`: an empty input list returns with
no change; otherwise the validated entries *replace* the stored
recommendations — and when every entry fails validation the stored list is
replaced by the empty list (with the counter untouched). -/
def add_recommendations (st : SessState) (movies : List RecInput) : SessState :=
  if movies.isEmpty then st
  else
    let valid := movies.filterMap validCheck
    if valid.isEmpty then { st with recommendations := [] }
    else
      { recommendations := valid
        total_movies_recommended := st.total_movies_recommended + valid.length }

end SessionMgr

namespace Scenario

open PyStr GenreUtils Movie Search Mood Review Json SessionMgr

/-- The history/candidate movie of the spec's deduplication scenario:
`\x7bid: 42, title: "A"\x7d`. -/
def movieA : MovieRecord := { title := some "A", tmdb_id := some 42 }

/-- The fresh candidate of the deduplication scenario: `\x7bid: 7, title: "B"\x7d`. -/
def movieB : MovieRecord := { title := some "B", tmdb_id := some 7 }

/-- The recommendation-history entry for movie A (as `_score_and_rank` would
have stored it). -/
def histEntryA : RankedMovie :=
  { title := "A", original_title := "", tmdb_id := some 42, year := "N/A",
    rating := 0, popularity := 0, vote_count := 0, genres := [],
    overview := "No description available", score := 0, raw_payload := movieA }

/-- The environment of the deduplication scenario: cache miss, no semantic
search, the store returns candidates A and B, and A's title is already in
the session history. -/
def envC2 : SearchEnv :=
  { cacheGet := .ok none, encodeQuery := .ok none, semanticSearch := .ok [],
    filterSearch := .ok [.dict movieA, .dict movieB],
    session := { recommendations := [histEntryA] }, rng := ⟨0⟩ }

/-- An environment in which the embedding stage raises while the filter-based
store query succeeds with one candidate. -/
def envC7sem : SearchEnv :=
  { cacheGet := .ok none, encodeQuery := .error "EncodingError",
    semanticSearch := .ok [], filterSearch := .ok [.dict movieB],
    session := {}, rng := ⟨0⟩ }

/-- An LLM response whose primary brace extraction yields the unparseable
`\x7bx\x7d`, while the aggressive second pass parses the trailing object with an
out-of-range intensity. -/
def c3resp : String := "\x7bx\x7d \x7b\"intensity_score\": 150\x7d"

/-- A well-formed LLM response with all required fields and an out-of-range
intensity of 150. -/
def c3respGood : String :=
  "\x7b\"detected_moods\": [\"sedih\"], \"intensity_score\": 150, \"emotion_type\": \"negative\", \"summary\": \"ok halo\", \"recommended_genres\": [\"Drama\"]\x7d"

/-- The parsed fields of `c3respGood`. -/
def c3fieldsGood : List (String × JVal) :=
  [("detected_moods", .jarr [.jstr "sedih"]),
   ("intensity_score", .jnum 150),
   ("emotion_type", .jstr "negative"),
   ("summary", .jstr "ok halo"),
   ("recommended_genres", .jarr [.jstr "Drama"])]

/-- A mood-analysis environment in which every LLM attempt raises. -/
def envC6fail : AnalyzeEnv :=
  { cacheGet := .ok none, attempts := fun _ => .error "APIError" }

/-- A summarizer environment whose cache lookup raises. -/
def envC8cacheErr : SummEnv :=
  { cacheGet := .error "CacheError", invoke := .ok "resp" }

/-- A summarizer environment with a cache miss and a healthy LLM. -/
def envC8miss : SummEnv :=
  { cacheGet := .ok none, invoke := .ok "Filmnya bagus banget, wajib nonton!" }

/-- An environment where every collaborator raises (cache lookup included). -/
def envAllFail : SearchEnv :=
  { cacheGet := .error "boom", encodeQuery := .error "boom",
    semanticSearch := .error "boom", filterSearch := .error "boom" }

/-- An environment with a cache miss where embedding and store both raise. -/
def envMissFail : SearchEnv :=
  { cacheGet := .ok none, encodeQuery := .error "boom",
    semanticSearch := .error "boom", filterSearch := .error "boom" }

/-- An environment with a cache miss and a store that returns no candidates. -/
def envMissEmpty : SearchEnv :=
  { cacheGet := .ok none, encodeQuery := .ok none,
    semanticSearch := .ok [], filterSearch := .ok [] }

/-- A placeholder ranked movie used as a `headD` default in witnesses. -/
def defaultRanked : RankedMovie :=
  { title := "", original_title := "", tmdb_id := none, year := "",
    rating := 0, popularity := 0, vote_count := 0, genres := [],
    overview := "", score := 0, raw_payload := {} }

/-- A stored recommendation entry with a valid payload. -/
def histRecA : RecDict :=
  { title := some "A", tmdb_id := some 42, raw_payload := some (.pdict movieA) }

/-- A session-state with a non-empty stored recommendation history. -/
def stWithHistory : SessState :=
  { recommendations := [histRecA], total_movies_recommended := 1 }

end Scenario

section Theorems

open PyStr GenreUtils Movie Search Mood Review Chat SessionMgr Json Scenario

/-- Reduction of a successful `Except` bind. -/
theorem except_bind_ok {α β ε : Type} (a : α) (k : α → Except ε β) :
    (Except.ok a >>= k) = k a := rfl

/-- Reduction of a failed `Except` bind. -/
theorem except_bind_err {α β ε : Type} (e : ε) (k : α → Except ε β) :
    ((Except.error e : Except ε α) >>= k) = Except.error e := rfl

/-- `pure` on `Except` is `ok`. -/
theorem except_pure_eq {α ε : Type} (a : α) :
    (pure a : Except ε α) = Except.ok a := rfl

/-- Claim C2, counterexample: in the spec's own scenario — history holds the
movie id 42 titled "A", the candidates are A (id 42) and B (id 7), and
`limit = 5` — the returned list *contains* id 42, because only one candidate
survives the history filter, which is fewer than the limit, so
`search_by_genres` reverts to the unfiltered candidate list. -/
theorem searchByGenres_dedup_scenario_counterexample :
    (Search.searchByGenres envC2 ["Drama"] 5 false none none).any
      (fun r => r.tmdb_id = some 42) = true := by with_unfolding_all rfl

/-- Claim C2, amended: in the scenario the exclusion is skipped (the filtered
pool has 1 < limit = 5 candidates while candidates were removed), so the
output is [A (42), B (7)]; the history movie is excluded exactly when the
filtered pool is not smaller than the limit — with `limit = 1` the output is
[B (7)] and id 42 is excluded. -/
theorem searchByGenres_dedup_scenario_amended :
    (Search.searchByGenres envC2 ["Drama"] 5 false none none).map
        (fun r => r.tmdb_id) = [some 42, some 7] ∧
    (Search.searchByGenres envC2 ["Drama"] 1 false none none).map
        (fun r => r.tmdb_id) = [some 7] := by
  constructor
  · with_unfolding_all rfl
  · with_unfolding_all rfl

/-- Claim C9: `parse_confirmation_response` tests the positive keyword list
(as substrings of the lower-cased, stripped reply) before the negative list,
so any reply that is not a new-search request and contains a positive
keyword as a substring is classified "yes", even when negative keywords such
as "tidak" are also present. -/
theorem parseConfirmation_positive_priority (s : String)
    (hns : Chat.isNewSearchRequest s = false)
    (hpos : Chat.positiveKeywords.any
      (fun k => pyContains (pyStrip (pyLower s)) k) = true) :
    Chat.parseConfirmationResponse s = some "yes" := by
  unfold Chat.parseConfirmationResponse
  simp [hns, hpos]

/-- Witness for C9: "tidak mau" is not a new-search request, contains the
positive keyword "mau" (inside "tidak mau"), and is classified "yes" despite
the negative keyword "tidak". -/
theorem parseConfirmation_positive_priority_witness :
    Chat.parseConfirmationResponse "tidak mau" = some "yes" :=
  parseConfirmation_positive_priority "tidak mau" (by decide) (by decide)

/-- Claim C10: `add_recommendations` with a non-empty list in which every
entry fails validation replaces the stored history with the empty list,
erasing prior recommendations; with an empty input list the state is
unchanged. -/
theorem add_recommendations_replacement (st : SessState)
    (movies : List RecInput) :
    (movies ≠ [] → (∀ m ∈ movies, validCheck m = none) →
      (add_recommendations st movies).recommendations = []) ∧
    add_recommendations st [] = st := by
  constructor
  · intro hne hall
    have hfm : movies.filterMap validCheck = [] := by
      simp [List.filterMap_eq_nil_iff]
      exact hall
    unfold add_recommendations
    simp [hne, hfm]
  · unfold add_recommendations
    simp

/-- Witness for C10: a state with one stored recommendation and an input of
one non-dict entry — the stored history is erased; and the empty input
leaves the state alone. -/
theorem add_recommendations_replacement_witness :
    (add_recommendations stWithHistory [RecInput.rnonDict]).recommendations = [] ∧
    add_recommendations stWithHistory [] = stWithHistory :=
  ⟨(add_recommendations_replacement stWithHistory [RecInput.rnonDict]).1
      (by decide) (by decide),
    (add_recommendations_replacement stWithHistory []).2⟩

/-- Claim C6, counterexample: with every LLM attempt raising, the exhausted
retry loop's error is caught *inside* `analyze`, which returns the
rule-based fallback analysis — no error is re-raised to the caller of
`analyze`. -/
theorem analyze_catches_retry_exhaustion_counterexample :
    Mood.analyzeRun envC6fail "halo" [] = .ok (Mood.fallbackAnalysis "halo") := by
  with_unfolding_all rfl

/-- Claim C6, amended: the text-completion call is attempted up to 3 times,
sleeping 1s then 2s between failed attempts, any exception triggers a retry,
and exhausting all retries re-raises the last error to `analyze` itself —
which catches it and returns the rule-based fallback analysis, so the error
never reaches the caller of `analyze`. -/
theorem invokeWithRetry_exhaustion_fallback (env : AnalyzeEnv)
    (e0 e1 e2 : String) (text : String)
    (h0 : env.attempts 0 = .error e0) (h1 : env.attempts 1 = .error e1)
    (h2 : env.attempts 2 = .error e2) (hc : env.cacheGet = .ok none) :
    Mood.invokeWithRetry env.attempts 3 = (.error e2, [1, 2]) ∧
    Mood.analyzeRun env text [] = .ok (Mood.fallbackAnalysis text) := by
  have hr : Mood.invokeWithRetry env.attempts 3 = (.error e2, [1, 2]) := by
    unfold Mood.invokeWithRetry
    unfold Mood.invokeWithRetryAux
    unfold Mood.invokeWithRetryAux
    unfold Mood.invokeWithRetryAux
    simp [h0, h1, h2]
  refine ⟨hr, ?_⟩
  unfold Mood.analyzeRun Mood.analyzeE
  simp [hc, hr, except_bind_ok, except_bind_err]

/-- Witness for C6: a concrete environment whose three attempts all fail
with "boom": the retry loop returns the last error after sleeping 1s and 2s,
and `analyze` returns the fallback analysis. -/
theorem invokeWithRetry_exhaustion_fallback_witness :
    Mood.invokeWithRetry (fun _ => .error "boom") 3 = (.error "boom", [1, 2]) ∧
    Mood.analyzeRun ⟨.ok none, fun _ => .error "boom"⟩ "halo" [] =
      .ok (Mood.fallbackAnalysis "halo") :=
  invokeWithRetry_exhaustion_fallback ⟨.ok none, fun _ => .error "boom"⟩
    "boom" "boom" "boom" "halo" rfl rfl rfl rfl

/-- Claim C8: `summarize` always returns a string: any exception escaping
the body is converted to the fixed fallback sentence (conjuncts 1 and 3),
and when normalization yields zero reviews it returns the fixed
"Belum ada ulasan." without consulting the LLM (the `false` flag of the
instrumented body) — for every input shape. -/
theorem summarize_totality (env : SummEnv) (raw : RawReviews) :
    (∀ e, Review.summarizeE env raw = .error e →
      Review.summarize env raw = "Netizen bilang filmnya bagus!") ∧
    (env.cacheGet = .ok none → Review.normalizeReviews raw = [] →
      Review.summarizeE env raw = .ok ("Belum ada ulasan.", false) ∧
      Review.summarize env raw = "Belum ada ulasan.") ∧
    (∀ e, env.cacheGet = .error e →
      Review.summarize env raw = "Netizen bilang filmnya bagus!") := by
  refine ⟨?_, ?_, ?_⟩
  · intro e he
    unfold Review.summarize
    simp [he]
  · intro hc hn
    have h1 : Review.summarizeE env raw = .ok ("Belum ada ulasan.", false) := by
      unfold Review.summarizeE
      simp [hc, hn, except_bind_ok, except_pure_eq]
    refine ⟨h1, ?_⟩
    unfold Review.summarize
    simp [h1]
  · intro e he
    have h1 : Review.summarizeE env raw = .error e := by
      unfold Review.summarizeE
      simp [he, except_bind_err]
    unfold Review.summarize
    simp [h1]

/-- Witness for C8: a failing cache lookup yields the fallback sentence, and
a cache miss with a `None` input yields the fixed no-reviews message without
an LLM call. -/
theorem summarize_totality_witness :
    Review.summarize envC8cacheErr (.rstr "sangat bagus filmnya") =
      "Netizen bilang filmnya bagus!" ∧
    Review.summarizeE envC8miss .rnone = .ok ("Belum ada ulasan.", false) ∧
    Review.summarize envC8miss .rnone = "Belum ada ulasan." :=
  ⟨(summarize_totality envC8cacheErr (.rstr "sangat bagus filmnya")).2.2
      "CacheError" rfl,
   ((summarize_totality envC8miss .rnone).2.1 rfl rfl).1,
   ((summarize_totality envC8miss .rnone).2.1 rfl rfl).2⟩

/-- Claim C3, counterexample: for the response `\x7bx\x7d \x7b"intensity_score": 150\x7d`
the primary extraction yields the unparseable `\x7bx\x7d`, so the aggressive
second pass parses the trailing object and returns it *without* clamping or
field validation: the returned intensity is 150, outside [0, 100]. -/
theorem parseResponse_aggressive_unclamped_counterexample :
    Mood.parseResponse c3resp = .ok (.jobj [("intensity_score", .jnum 150)]) ∧
    ¬ ((150 : ℚ) ≤ 100) := by
  constructor
  · with_unfolding_all rfl
  · norm_num

/-- Claim C3, amended: on the primary parsing path — whenever `json.loads`
succeeds on the primarily-extracted string and the five required fields are
present — the returned judgment carries `intensity_score` clamped into
[0, 100]; only the aggressive last-brace fallback (taken after a decode
error) can return an unclamped value. -/
theorem parseResponse_primary_clamps (resp : String)
    (fields : List (String × JVal)) (q : ℚ)
    (hj : jsonLoads (Mood.primaryJsonStr resp) = .ok (.jobj fields))
    (hreq : Mood.requiredFields.all (fun f => fields.any (fun p => p.1 = f)) = true)
    (hq : dictGet fields "intensity_score" = some (.jnum q)) :
    Mood.parseResponse resp =
      .ok (.jobj (Mood.dictSet fields "intensity_score"
        (.jnum (max 0 (min 100 q))))) ∧
    0 ≤ max 0 (min 100 q) ∧ max 0 (min 100 q) ≤ 100 := by
  have hb : ∀ f ∈ Mood.requiredFields, fields.any (fun p => p.1 = f) = true := by
    simpa [List.all_eq_true] using hreq
  have h1 := hb "detected_moods" (by simp [Mood.requiredFields])
  have h2 := hb "intensity_score" (by simp [Mood.requiredFields])
  have h3 := hb "emotion_type" (by simp [Mood.requiredFields])
  have h4 := hb "summary" (by simp [Mood.requiredFields])
  have h5 := hb "recommended_genres" (by simp [Mood.requiredFields])
  refine ⟨?_, le_max_left 0 _, max_le (by norm_num) (min_le_left 100 q)⟩
  unfold Mood.parseResponse
  rw [hj]
  simp [Mood.requiredFields, List.foldlM, Mood.pyIn, h1, h2, h3, h4, h5,
    except_bind_ok, except_pure_eq, Mood.clampIntensity, hq]

set_option maxRecDepth 4000 in
/-- Witness for C3: a well-formed response with all required fields and a
raw intensity of 150, which the primary path clamps to 100. -/
theorem parseResponse_primary_clamps_witness :
    Mood.parseResponse c3respGood =
      .ok (.jobj (Mood.dictSet c3fieldsGood "intensity_score"
        (.jnum (max 0 (min 100 150))))) ∧
    0 ≤ max 0 (min 100 (150 : ℚ)) ∧ max 0 (min 100 (150 : ℚ)) ≤ 100 :=
  parseResponse_primary_clamps c3respGood c3fieldsGood 150
    (by with_unfolding_all rfl) (by with_unfolding_all rfl)
    (by with_unfolding_all rfl)

/-- Claim C7, counterexample: when the embedding stage raises but the
filter-based store query succeeds with a candidate, `search_by_genres` does
*not* return an empty list — the semantic failure is caught internally and
the filter-based results are returned. -/
theorem searchByGenres_semantic_fallback_counterexample :
    (Search.searchByGenres envC7sem ["Drama"] 5 false none
      (some "film sedih")).map (fun r => r.title) = ["B"] ∧
    Search.searchByGenres envC7sem ["Drama"] 5 false none
      (some "film sedih") ≠ [] := by
  constructor
  · with_unfolding_all rfl
  · with_unfolding_all decide

/-- Claim C7, amended: an exception in the cache lookup, or in the
filter-based store query (raised directly or reached after a failing
semantic stage), yields the empty list, as does an empty genre-id mapping or
an empty candidate set; an exception in the semantic sub-stage alone is
caught internally and the call behaves exactly like the filter-only route
(which may return a non-empty list); no exception propagates. -/
theorem searchByGenres_failure_policy (env : SearchEnv) (names : List String)
    (limit : Nat) (personalize : Bool) (ctx : Option String)
    (q : Option String) :
    (∀ e, env.cacheGet = .error e →
      Search.searchByGenres env names limit personalize ctx q = []) ∧
    (env.cacheGet = .ok none → genre_names_to_ids names = [] →
      Search.searchByGenres env names limit personalize ctx q = []) ∧
    (env.cacheGet = .ok none → ∀ e2, env.filterSearch = .error e2 →
      ∀ e3, env.encodeQuery = .error e3 →
      Search.searchByGenres env names limit personalize ctx q = []) ∧
    (env.cacheGet = .ok none → env.filterSearch = .ok [] →
      Search.queryTruthy q = false →
      Search.searchByGenres env names limit personalize ctx q = []) ∧
    (∀ e3, env.encodeQuery = .error e3 →
      Search.searchByGenres env names limit personalize ctx q =
        Search.searchByGenres env names limit personalize ctx none) := by
  refine ⟨?_, ?_, ?_, ?_, ?_⟩
  · intro e he
    unfold Search.searchByGenres Search.searchByGenresE
    simp [he, except_bind_err]
  · intro hc hg
    unfold Search.searchByGenres Search.searchByGenresE
    simp [hc, hg, except_bind_ok, except_pure_eq]
  · intro hc e2 hf e3 he3
    unfold Search.searchByGenres Search.searchByGenresE
    simp [hc, hf, he3, Search.semanticAttempt, except_bind_ok,
      except_bind_err, except_pure_eq]
    by_cases hg : genre_names_to_ids names = [] <;> simp [hg]
  · intro hc hf hqt
    unfold Search.searchByGenres Search.searchByGenresE
    simp [hc, hf, hqt, Search.semanticAttempt, except_bind_ok,
      except_pure_eq]
  · intro e3 he3
    unfold Search.searchByGenres Search.searchByGenresE
    simp [he3, Search.semanticAttempt, Search.queryTruthy]

/-- Witness for C7: concrete environments exercising each clause — a failing
cache lookup, an unresolvable genre list, a failing store with a failing
embedder, a store with no candidates, and the semantic-failure fallback
equation. -/
theorem searchByGenres_failure_policy_witness :
    Search.searchByGenres envAllFail ["Drama"] 5 false none none = [] ∧
    Search.searchByGenres envMissEmpty ["zzz"] 5 false none none = [] ∧
    Search.searchByGenres envMissFail ["Drama"] 5 false none (some "q") = [] ∧
    Search.searchByGenres envMissEmpty ["Drama"] 5 false none none = [] ∧
    Search.searchByGenres envMissFail ["Drama"] 5 false none (some "q") =
      Search.searchByGenres envMissFail ["Drama"] 5 false none none :=
  ⟨(searchByGenres_failure_policy envAllFail ["Drama"] 5 false none none).1
      "boom" rfl,
   (searchByGenres_failure_policy envMissEmpty ["zzz"] 5 false none none).2.1
      rfl (by with_unfolding_all rfl),
   (searchByGenres_failure_policy envMissFail ["Drama"] 5 false none
      (some "q")).2.2.1 rfl "boom" rfl "boom" rfl,
   (searchByGenres_failure_policy envMissEmpty ["Drama"] 5 false none
      none).2.2.2.1 rfl rfl rfl,
   (searchByGenres_failure_policy envMissFail ["Drama"] 5 false none
      (some "q")).2.2.2.2 "boom" rfl⟩

/-- With a falsy context hash no jitter is drawn, so the scored entry does
not depend on the generator state. -/
theorem scoreOne_fst_ctx_false (personalize : Bool) (ctx : Option String)
    (useSem : Bool) (session : Session) (m : MovieRecord) (r1 r2 : Rng)
    (hctx : Movie.ctxTruthy ctx = false) :
    (Movie.scoreOne personalize ctx useSem session m r1).1 =
    (Movie.scoreOne personalize ctx useSem session m r2).1 := by
  unfold Movie.scoreOne
  simp [hctx]

/-- With a falsy context hash the generator state passes through unchanged. -/
theorem scoreOne_snd_ctx_false (personalize : Bool) (ctx : Option String)
    (useSem : Bool) (session : Session) (m : MovieRecord) (r : Rng)
    (hctx : Movie.ctxTruthy ctx = false) :
    (Movie.scoreOne personalize ctx useSem session m r).2 = r := by
  unfold Movie.scoreOne
  simp [hctx]

/-- With a falsy context hash the scored list produced by the fold does not
depend on the initial generator state. -/
theorem scoreFold_fst_rng_indep (personalize : Bool) (ctx : Option String)
    (useSem : Bool) (session : Session)
    (hctx : Movie.ctxTruthy ctx = false) :
    ∀ (l : List MovieRecord) (acc : List RankedMovie) (r1 r2 : Rng),
      (l.foldl (Movie.scoreStep personalize ctx useSem session) (acc, r1)).1 =
      (l.foldl (Movie.scoreStep personalize ctx useSem session) (acc, r2)).1 := by
  intro l
  induction l with
  | nil => intro acc r1 r2; rfl
  | cons m t ih =>
    intro acc r1 r2
    simp only [List.foldl_cons]
    have e1 : Movie.scoreStep personalize ctx useSem session (acc, r1) m =
        ((if m.isPyEmpty then acc
          else acc ++ [(Movie.scoreOne personalize ctx useSem session m r1).1]), r1) := by
      unfold Movie.scoreStep
      rw [scoreOne_snd_ctx_false personalize ctx useSem session m r1 hctx]
    have e2 : Movie.scoreStep personalize ctx useSem session (acc, r2) m =
        ((if m.isPyEmpty then acc
          else acc ++ [(Movie.scoreOne personalize ctx useSem session m r2).1]), r2) := by
      unfold Movie.scoreStep
      rw [scoreOne_snd_ctx_false personalize ctx useSem session m r2 hctx]
    rw [e1, e2,
      scoreOne_fst_ctx_false personalize ctx useSem session m r1 r2 hctx]
    exact ih _ r1 r2

/-- Claim C4, counterexample: with the contextHash "zzzzzzzz" (length ≥ 8 but
not hexadecimal) the seed computation raises, the bare `except: pass`
swallows it, the generator stays *unseeded*, and two runs from different
generator states produce different scores and a different ordering — the
claim's "for every contextHash value" fails. -/
theorem scoreAndRank_nonhex_ctx_counterexample :
    Movie.scoreAndRank [.dict movieA, .dict movieB] 5 false
        (some "zzzzzzzz") false {} ⟨0⟩ ≠
      Movie.scoreAndRank [.dict movieA, .dict movieB] 5 false
        (some "zzzzzzzz") false {} ⟨1⟩ := by
  with_unfolding_all decide

/-- Claim C4, amended: whenever the contextHash is absent, empty, shorter
than 8 characters (hash-of-string seed), or has hexadecimal first 8
characters (as every md5-derived hash produced by the application does), the
generator is deterministically seeded — or no jitter is drawn at all — so
two runs of `_score_and_rank` on the same input from arbitrary generator
states yield identical scores and ordering. -/
theorem scoreAndRank_ctx_determinism (movies : List Candidate) (limit : Nat)
    (personalize : Bool) (ctx : Option String) (useSem : Bool)
    (session : Session) (h : Movie.ctxSeedIndependent ctx = true)
    (rng1 rng2 : Rng) :
    Movie.scoreAndRank movies limit personalize ctx useSem session rng1 =
    Movie.scoreAndRank movies limit personalize ctx useSem session rng2 := by
  by_cases hct : Movie.ctxTruthy ctx = true
  · cases ctx with
    | none => simp [Movie.ctxTruthy] at hct
    | some hs =>
      have hne : hs ≠ "" := by simpa [Movie.ctxTruthy] using hct
      have hseed : (Movie.seedOfContextHash hs).isSome = true := by
        unfold Movie.ctxSeedIndependent at h
        simpa [hne] using h
      obtain ⟨n, hn⟩ := Option.isSome_iff_exists.mp hseed
      unfold Movie.scoreAndRank
      simp [hct, hn]
  · have hcf : Movie.ctxTruthy ctx = false := by simpa using hct
    unfold Movie.scoreAndRank
    simp only [hcf, Bool.false_eq_true, if_false]
    rw [scoreFold_fst_rng_indep personalize ctx useSem session hcf _ [] rng1 rng2]

/-- Witness for C4: the hex context hash "1a2b3c4d" seeds the generator, so
runs from states 0 and 99 coincide. -/
theorem scoreAndRank_ctx_determinism_witness :
    Movie.ctxSeedIndependent (some "1a2b3c4d") = true ∧
    Movie.scoreAndRank [.dict movieA, .dict movieB] 5 false
        (some "1a2b3c4d") false {} ⟨0⟩ =
      Movie.scoreAndRank [.dict movieA, .dict movieB] 5 false
        (some "1a2b3c4d") false {} ⟨99⟩ :=
  ⟨by with_unfolding_all rfl,
   scoreAndRank_ctx_determinism [.dict movieA, .dict movieB] 5 false
     (some "1a2b3c4d") false {} (by with_unfolding_all rfl) ⟨0⟩ ⟨99⟩⟩

/-- Claim C1: every entry returned by the Scoring & Ranking Engine carries a
raw payload that is a non-empty mapping — candidates without a dict shape or
a truthy title are dropped before scoring, and the final pass re-validates
that each surviving entry still carries a truthy raw payload. -/
theorem scoreAndRank_raw_payload_invariant (movies : List Candidate)
    (limit : Nat) (personalize : Bool) (ctx : Option String) (useSem : Bool)
    (session : Session) (rng : Rng) (r : RankedMovie)
    (hr : r ∈ Movie.scoreAndRank movies limit personalize ctx useSem session rng) :
    r.raw_payload.isPyEmpty = false := by
  simp only [Movie.scoreAndRank] at hr
  split at hr
  · simp at hr
  · have h2 := (List.mem_filter.mp hr).2
    simpa using h2

/-- Witness for C1: the single returned entry for candidate A carries its
non-empty payload. -/
theorem scoreAndRank_raw_payload_invariant_witness :
    ((Movie.scoreAndRank [.dict movieA] 5 false none false {} ⟨0⟩).headD
      defaultRanked).raw_payload.isPyEmpty = false :=
  scoreAndRank_raw_payload_invariant [.dict movieA] 5 false none false {} ⟨0⟩
    ((Movie.scoreAndRank [.dict movieA] 5 false none false {} ⟨0⟩).headD
      defaultRanked)
    (by with_unfolding_all decide)

/-- `Char.ofNat` round-trips on valid code points. -/
theorem toNat_ofNat_valid (n : Nat) (h : n.isValidChar) :
    (Char.ofNat n).toNat = n := by
  simp only [Char.ofNat, dif_pos h, Char.ofNatAux, Char.toNat]
  rfl

/-- Lower-casing an upper-case ASCII letter adds 32 to its code point. -/
theorem lowChar_toNat_upper (c : Char) (h : 65 ≤ c.toNat ∧ c.toNat ≤ 90) :
    (lowChar c).toNat = c.toNat + 32 := by
  unfold lowChar
  rw [if_pos h]
  exact toNat_ofNat_valid _ (Or.inl (by omega))

/-- Lower-casing fixes everything that is not an upper-case ASCII letter. -/
theorem lowChar_eq_self (c : Char) (h : ¬ (65 ≤ c.toNat ∧ c.toNat ≤ 90)) :
    lowChar c = c := by
  unfold lowChar
  rw [if_neg h]

/-- Lower-casing is idempotent. -/
theorem lowChar_idem (c : Char) : lowChar (lowChar c) = lowChar c := by
  by_cases h : 65 ≤ c.toNat ∧ c.toNat ≤ 90
  · have ht := lowChar_toNat_upper c h
    apply lowChar_eq_self
    rw [ht]
    omega
  · rw [lowChar_eq_self c h]
    exact lowChar_eq_self c h

/-- Lower-casing preserves letterhood. -/
theorem isLetterB_lowChar (c : Char) : isLetterB (lowChar c) = isLetterB c := by
  by_cases h : 65 ≤ c.toNat ∧ c.toNat ≤ 90
  · have ht := lowChar_toNat_upper c h
    unfold isLetterB
    rw [ht]
    simp only [decide_eq_decide]
    omega
  · rw [lowChar_eq_self c h]

/-- Upper-casing after lower-casing equals upper-casing directly. -/
theorem upChar_lowChar (c : Char) : upChar (lowChar c) = upChar c := by
  by_cases h : 65 ≤ c.toNat ∧ c.toNat ≤ 90
  · have ht := lowChar_toNat_upper c h
    unfold upChar
    rw [ht, if_pos (by omega), if_neg (by omega)]
    have : c.toNat + 32 - 32 = c.toNat := by omega
    rw [this, Char.ofNat_toNat]
  · rw [lowChar_eq_self c h]

/-- Title-casing is insensitive to prior lower-casing, character-list form. -/
theorem titleL_map_lowChar (l : List Char) :
    ∀ prev, titleL prev (l.map lowChar) = titleL prev l := by
  induction l with
  | nil => intro prev; rfl
  | cons c t ih =>
    intro prev
    simp only [List.map_cons, titleL]
    rw [isLetterB_lowChar, lowChar_idem, upChar_lowChar, ih]
    by_cases hl : isLetterB c = true
    · simp [hl]
    · have hc : lowChar c = c := by
        apply lowChar_eq_self
        unfold isLetterB at hl
        simp only [decide_eq_true_eq] at hl
        omega
      simp [hl, hc]

/-- `str.title` is insensitive to prior lower-casing. -/
theorem pyTitle_pyLower (s : String) : pyTitle (pyLower s) = pyTitle s := by
  unfold pyTitle pyLower
  exact congrArg String.mk (titleL_map_lowChar s.data false)

/-- `str.lower` is idempotent. -/
theorem pyLower_idem (s : String) : pyLower (pyLower s) = pyLower s := by
  unfold pyLower
  apply congrArg String.mk
  show (s.data.map lowChar).map lowChar = s.data.map lowChar
  rw [List.map_map]
  exact List.map_congr_left (fun c _ => lowChar_idem c)

/-- The composed codec is the title-cased identity on every lower-cased key
of the genre table other than "science fiction" (whose id reverse-maps to
"sci-fi"). -/
theorem key_roundtrip (k : String) (hk : k ∈ GENRE_MAP.map Prod.fst)
    (h2 : k ≠ "science fiction") :
    genre_ids_to_names (genre_names_to_ids [k]) = [pyTitle k] := by
  fin_cases hk
  all_goals first
    | exact absurd rfl h2
    | with_unfolding_all rfl

/-- One valid genre name other than "science fiction" round-trips to its
title-cased form. -/
theorem roundtrip_elem (n : String) (h1 : is_valid_genre n = true)
    (h2 : pyLower n ≠ "science fiction") :
    genre_ids_to_names (genre_names_to_ids [n]) = [pyTitle n] := by
  have hk : pyLower n ∈ GENRE_MAP.map Prod.fst := by
    unfold is_valid_genre at h1
    rw [List.any_eq_true] at h1
    obtain ⟨p, hp, he⟩ := h1
    rw [List.mem_map]
    exact ⟨p, hp, by simpa using he⟩
  have hkey := key_roundtrip (pyLower n) hk h2
  have hids : genre_names_to_ids [pyLower n] = genre_names_to_ids [n] := by
    unfold genre_names_to_ids
    rw [List.filterMap_cons, List.filterMap_cons, pyLower_idem]
  rw [hids] at hkey
  rw [hkey, pyTitle_pyLower]

/-- Claim C5, counterexample: the valid genre name "Science Fiction" does
not round-trip — both "science fiction" and "sci-fi" share id 878, the
reverse table keeps "sci-fi", so the round trip returns ["Sci-Fi"] instead
of the title-cased input ["Science Fiction"]. -/
theorem genre_roundtrip_scifi_counterexample :
    genre_ids_to_names (genre_names_to_ids ["Science Fiction"]) = ["Sci-Fi"] ∧
    genre_ids_to_names (genre_names_to_ids ["Science Fiction"]) ≠
      ["Science Fiction"].map pyTitle := by
  constructor
  · with_unfolding_all rfl
  · with_unfolding_all decide

/-- Claim C5, amended: for every list of valid genre names none of which
lower-cases to "science fiction", mapping names to ids and back returns the
input title-cased, in order ("science fiction" itself comes back as
"Sci-Fi", the alias sharing its id). -/
theorem genre_roundtrip_amended (X : List String)
    (h : ∀ n ∈ X, is_valid_genre n = true ∧ pyLower n ≠ "science fiction") :
    genre_ids_to_names (genre_names_to_ids X) = X.map pyTitle := by
  induction X with
  | nil => rfl
  | cons n t ih =>
    obtain ⟨h1, h2⟩ := h n (List.mem_cons_self n t)
    have ht := ih (fun m hm => h m (List.mem_cons_of_mem n hm))
    have he := roundtrip_elem n h1 h2
    have hsplit : genre_names_to_ids (n :: t) =
        genre_names_to_ids [n] ++ genre_names_to_ids t := by
      show List.filterMap _ ([n] ++ t) = _
      rw [List.filterMap_append]
      rfl
    rw [hsplit]
    unfold genre_ids_to_names at he ht ⊢
    rw [List.map_append, he, ht, List.map_cons]
    rfl

/-- Witness for C5: ["Action", "sci-fi"] are valid non-"science fiction"
names and round-trip to ["Action", "Sci-Fi"]. -/
theorem genre_roundtrip_amended_witness :
    genre_ids_to_names (genre_names_to_ids ["Action", "sci-fi"]) =
      ["Action", "sci-fi"].map pyTitle :=
  genre_roundtrip_amended ["Action", "sci-fi"] (by with_unfolding_all decide)

end Theorems
